import Mathlib

/-!
Verification of the dashboard front-end of `wch/anthropic_dashboard`.

The TypeScript components are shallowly embedded as Lean functions:

* JavaScript objects received on the reactive channel in column-major form
  (`Record<string, any[]>`) are modelled as association lists
  `List (String × List α)` whose order is the object's key-enumeration order.
* An out-of-range JavaScript array access yields `undefined`; this is modelled
  by `List.getElem?`, so a row field is an `Option α`.
* `undefined`-able component props are modelled with `Option`.
-/

namespace Dashboard

/-- One row produced by the column-major → row-major conversion in
`DataTableSection.tsx`: for each column name the value at `rowIndex`
(`undefined`, i.e. `none`, when the column is shorter). -/
def rowAt {α : Type} (cols : List (String × List α)) (i : Nat) :
    List (String × Option α) :=
  cols.map (fun p => (p.1, p.2[i]?))

/-- `processUsageData` from `DataTableSection.tsx`: `undefined` input gives `[]`;
otherwise the number of rows is the length of the first column in
key-enumeration order, and row `i` maps every column name to that column's
element `i`. -/
def processUsageData {α : Type} (raw : Option (List (String × List α))) :
    List (List (String × Option α)) :=
  match raw with
  | none => []
  | some cols =>
    let numRows := match cols with
      | [] => 0
      | c :: _ => c.2.length
    (List.range numRows).map (fun i => rowAt cols i)

/-- `processCostData` from `DataTableSection.tsx`; its body is identical to
`processUsageData`. -/
def processCostData {α : Type} (raw : Option (List (String × List α))) :
    List (List (String × Option α)) :=
  match raw with
  | none => []
  | some cols =>
    let numRows := match cols with
      | [] => 0
      | c :: _ => c.2.length
    (List.range numRows).map (fun i => rowAt cols i)

/-- What a component renders: either the `ErrorState` panel (with its title and
the two button flags it is given) or the component's normal content. -/
inductive PanelView : Type
  | errorPanel (title : String) (showDemoModeButton showRetryButton : Bool)
  | content
  deriving DecidableEq

/-- The four KPI strings received by `StatsCards` (defaults `"0"`, `"$0.00"`,
`"0"`, `"0"`). -/
structure StatsValues where
  total_tokens : String
  total_cost : String
  active_models : String
  api_calls : String
  deriving DecidableEq

/-- The branch in `StatsCards.tsx`: the `ErrorState` panel (with demo-mode and
retry buttons) is rendered when the API status is `"error"` and all four KPI
values still equal their defaults; otherwise the stat cards are rendered. -/
def statsCardsView (apiStatus : Option String) (v : StatsValues) : PanelView :=
  if apiStatus = some "error" ∧ v.total_tokens = "0" ∧ v.total_cost = "$0.00" ∧
      v.active_models = "0" ∧ v.api_calls = "0" then
    .errorPanel "Statistics Unavailable" true true
  else
    .content

/-- The branch in `ChartsSection.tsx`: the `ErrorState` panel is rendered when
the API status is `"error"` and all five processed chart datasets are empty;
otherwise the charts are rendered. -/
def chartsSectionView {α β γ δ ε : Type} (apiStatus : Option String)
    (tokenUsageData : List α) (costByModelData : List β)
    (serviceTierData : List γ) (workspaceCostData : List δ)
    (apiKeyUsageData : List ε) : PanelView :=
  if apiStatus = some "error" ∧ tokenUsageData.length = 0 ∧
      costByModelData.length = 0 ∧ serviceTierData.length = 0 ∧
      workspaceCostData.length = 0 ∧ apiKeyUsageData.length = 0 then
    .errorPanel "Charts Unavailable" true true
  else
    .content

/-- `getStatusText` in `ApiStatusCard.tsx` (the `switch` on
`apiStatus.status`). -/
def apiStatusCardGetStatusText (status : String) : String :=
  if status = "connected" then "Live Data"
  else if status = "demo" then "Demo Data"
  else if status = "error" then "API Error"
  else "Unknown"

/-- `ApiStatusCard.tsx` renders the `apiStatus.message` alert exactly under the
condition `apiStatus.status !== "connected"`. -/
def apiStatusCardShowsMessage (status : String) : Bool :=
  status != "connected"

/-- `ApiStatus.getStatusText` in the sidebar (`app-sidebar`); its `switch` is
the same as the one in `ApiStatusCard.tsx`. -/
def sidebarApiStatusGetStatusText (status : String) : String :=
  if status = "connected" then "Live Data"
  else if status = "demo" then "Demo Data"
  else if status = "error" then "API Error"
  else "Unknown"

/-- The sidebar `ApiStatus` renders `apiStatus.message` exactly under the
condition `apiStatus.status !== "connected"`. -/
def sidebarApiStatusShowsMessage (status : String) : Bool :=
  status != "connected"

/-- `getStatusText` in `DemoModeToggle.tsx`: the `demoMode` input short-circuits
to `"Demo Data"`, a missing status gives `"Loading..."`, and the `switch`
includes a `"partial"` case; its `default` returns the status string itself. -/
def demoToggleGetStatusText (demoMode : Bool) (apiStatus : Option String) :
    String :=
  if demoMode then "Demo Data"
  else
    match apiStatus with
    | none => "Loading..."
    | some status =>
      if status = "connected" then "Live Data"
      else if status = "partial" then "Partial Data"
      else if status = "error" then "API Error"
      else if status = "demo" then "Demo Data"
      else status

/-- `getBadgeVariant` in `DemoModeToggle.tsx`, including its `"partial"`
case. -/
def demoToggleGetBadgeVariant (demoMode : Bool) (apiStatus : Option String) :
    String :=
  if demoMode then "secondary"
  else
    match apiStatus with
    | none => "secondary"
    | some status =>
      if status = "connected" then "default"
      else if status = "partial" then "secondary"
      else if status = "error" then "destructive"
      else if status = "demo" then "secondary"
      else "secondary"

/-- Outcome of one call of `registerHandler` in `ToastSystem.tsx`. -/
inductive ToastRegisterResult : Type
  | registered
  | retryIn (delayMs : Nat)
  deriving DecidableEq

/-- `registerHandler` in `ToastSystem.tsx`: register the handler when
`window.Shiny` is available, otherwise schedule itself again after a fixed
100 ms delay. -/
def toastRegisterStep (shinyAvailable : Bool) : ToastRegisterResult :=
  if shinyAvailable then .registered else .retryIn 100

/-- Effects performed by `ErrorState.handleRetry` in order. -/
inductive RetryEffect : Type
  | callOnRetry
  | reloadPage
  deriving DecidableEq

/-- `handleRetry` in `ErrorState`: call `onRetry` when provided, then reload
the page via `window.location.reload()`. -/
def errorStateHandleRetry (hasOnRetry : Bool) : List RetryEffect :=
  (if hasOnRetry then [RetryEffect.callOnRetry] else []) ++
    [RetryEffect.reloadPage]

/-- The named frontend input values written by the components via
`useShinyInput`. -/
structure FrontendInputs where
  filter_workspace_id : String
  filter_api_key_id : String
  filter_model : String
  filter_granularity : String
  date_start : String
  date_end : String
  use_demo_mode : Bool
  deriving DecidableEq

/-- `handleWorkspaceChange` in `FilterControls.tsx` / `FiltersSidebar.tsx`:
sets `filter_workspace_id` to the new value and also resets
`filter_api_key_id` to `"all"`. -/
def handleWorkspaceChange (s : FrontendInputs) (value : String) :
    FrontendInputs :=
  { s with filter_workspace_id := value, filter_api_key_id := "all" }

/-- The API-key select's `onValueChange` is `setSelectedApiKey` directly. -/
def setSelectedApiKey (s : FrontendInputs) (value : String) : FrontendInputs :=
  { s with filter_api_key_id := value }

/-- The model select's `onValueChange` is `setSelectedModel` directly. -/
def setSelectedModel (s : FrontendInputs) (value : String) : FrontendInputs :=
  { s with filter_model := value }

/-- The granularity select's `onValueChange` is `setSelectedGranularity`. -/
def setSelectedGranularity (s : FrontendInputs) (value : String) :
    FrontendInputs :=
  { s with filter_granularity := value }

/-- `handleToggle` in `DemoModeToggle.tsx`: writes `use_demo_mode`. -/
def handleToggle (s : FrontendInputs) (checked : Bool) : FrontendInputs :=
  { s with use_demo_mode := checked }

/-- `handleEnableDemoMode` in `ErrorState`: writes `use_demo_mode := true`. -/
def handleEnableDemoMode (s : FrontendInputs) : FrontendInputs :=
  { s with use_demo_mode := true }

/-- Gregorian calendar date (year, month, day) of a day number counted from
1970-01-01, the civil-from-days algorithm underlying `Date.toISOString`.
Day numbers are non-negative here (dates from 1970 on), so `Nat` arithmetic
matches the integer algorithm. -/
def civilFromDays (day : Nat) : Nat × Nat × Nat :=
  let z := day + 719468
  let era := z / 146097
  let doe := z % 146097
  let yoe := (doe - doe / 1460 + doe / 36524 - doe / 146096) / 365
  let y := yoe + era * 400
  let doy := doe - (365 * yoe + yoe / 4 - yoe / 100)
  let mp := (5 * doy + 2) / 153
  let d := doy - (153 * mp + 2) / 5 + 1
  let m := if mp < 10 then mp + 3 else mp - 9
  (if m ≤ 2 then y + 1 else y, m, d)

/-- Zero-padded two-digit decimal rendering. -/
def pad2 (n : Nat) : String :=
  if n < 10 then "0" ++ toString n else toString n

/-- Zero-padded four-digit decimal rendering. -/
def pad4 (n : Nat) : String :=
  if n < 10 then "000" ++ toString n
  else if n < 100 then "00" ++ toString n
  else if n < 1000 then "0" ++ toString n
  else toString n

/-- `date.toISOString().split("T")[0]`: the `"YYYY-MM-DD"` calendar date of a
day number. -/
def isoDate (day : Nat) : String :=
  let ymd := civilFromDays day
  pad4 ymd.1 ++ "-" ++ pad2 ymd.2.1 ++ "-" ++ pad2 ymd.2.2

/-- `setPresetRange(days)` from `DateRangeSelector.tsx` / `FiltersSidebar.tsx`:
with `today` as a day number, it produces the `date_start` and `date_end`
input strings. -/
def setPresetRange (today days : Nat) : String × String :=
  let pastDate := today - days
  (isoDate pastDate ++ "T00:00:00Z", isoDate today ++ "T23:59:59Z")

/-- The epoch-seconds timestamp denoted by `isoDate day ++ "T00:00:00Z"`. -/
def dayStartTimestamp (day : Nat) : Nat := day * 86400

/-- The epoch-seconds timestamp denoted by `isoDate day ++ "T23:59:59Z"`. -/
def dayEndTimestamp (day : Nat) : Nat := day * 86400 + 86399

/-- The `days` arguments of the preset buttons in `DateRangeSelector.tsx`
(Today, Last 7/30/90 days). -/
def dateRangeSelectorPresetDays : List Nat := [1, 7, 30, 90]

/-- The `days` arguments of the preset buttons in `FiltersSidebar.tsx`. -/
def filtersSidebarPresetDays : List Nat := [7, 30, 90]

/-- `handleStartDateSelect`: when a date is picked, write `date_start` as the
date suffixed with `"T00:00:00Z"`; `undefined` writes nothing. -/
def handleStartDateSelect (s : FrontendInputs) (date : Option Nat) :
    FrontendInputs :=
  match date with
  | none => s
  | some d => { s with date_start := isoDate d ++ "T00:00:00Z" }

/-- `handleEndDateSelect`: when a date is picked, write `date_end` as the date
suffixed with `"T23:59:59Z"`; `undefined` writes nothing. -/
def handleEndDateSelect (s : FrontendInputs) (date : Option Nat) :
    FrontendInputs :=
  match date with
  | none => s
  | some d => { s with date_end := isoDate d ++ "T23:59:59Z" }

/-- `setPresetRange` as an input-writing handler: writes `date_start` and
`date_end`. -/
def setPresetRangeInputs (s : FrontendInputs) (today days : Nat) :
    FrontendInputs :=
  { s with
    date_start := (setPresetRange today days).1
    date_end := (setPresetRange today days).2 }

/-- Decimal digits folded into a natural number. -/
def digitsToNat (l : List Char) : Nat :=
  l.foldl (fun acc c => acc * 10 + (c.toNat - 48)) 0

/-- The exact value of a JavaScript number obtained from `parseFloat` on a
decimal string: the value is `mantissa / 10 ^ scale`. All the numbers this
app formats are exact at this precision, so decimal arithmetic models the
float arithmetic of the source. -/
structure DecimalValue where
  mantissa : Int
  scale : Nat
  deriving DecidableEq

/-- `n ≤ q` for a natural bound `n`, as the source's `num >= n` test. -/
def DecimalValue.atLeast (q : DecimalValue) (n : Nat) : Prop :=
  (n : Int) * ((10 : Nat) ^ q.scale : Nat) ≤ q.mantissa

instance (q : DecimalValue) (n : Nat) : Decidable (q.atLeast n) :=
  inferInstanceAs (Decidable (_ ≤ _))

/-- Exact division of a decimal value by `10 ^ k` (the source's `num / 1000000`
and `num / 1000`). -/
def DecimalValue.divPow10 (q : DecimalValue) (k : Nat) : DecimalValue :=
  ⟨q.mantissa, q.scale + k⟩

/-- `parseFloat` on the decimal strings this app's KPI outputs carry: an
optional sign, integer digits, and an optional fraction; a string that does
not start with a number gives `none` (JavaScript `NaN`). -/
def parseDecimal (s : String) : Option DecimalValue :=
  let l := s.toList
  let signAndRest : Bool × List Char :=
    match l with
    | '-' :: rest => (true, rest)
    | rest => (false, rest)
  let intDigits := signAndRest.2.takeWhile Char.isDigit
  if intDigits.isEmpty then none
  else
    let rest := signAndRest.2.drop intDigits.length
    let fracDigits : List Char :=
      match rest with
      | '.' :: r => r.takeWhile Char.isDigit
      | _ => []
    let mag : Nat := digitsToNat (intDigits ++ fracDigits)
    some ⟨if signAndRest.1 then -(mag : Int) else (mag : Int), fracDigits.length⟩

/-- `Number.prototype.toFixed(1)` for the non-negative values this app
formats: round half up to one decimal place. -/
def toFixed1 (q : DecimalValue) : String :=
  let p := (10 : Nat) ^ q.scale
  let n := (q.mantissa.toNat * 20 + p) / (2 * p)
  toString (n / 10) ++ "." ++ toString (n % 10)

/-- `Number.prototype.toLocaleString()` for the values this app passes to it
(magnitude below 1000): plain decimal rendering with trailing fraction
zeros dropped; no grouping separators arise. -/
def renderLocale (q : DecimalValue) : String :=
  let p := (10 : Nat) ^ q.scale
  let m := q.mantissa.natAbs
  let rStr := toString (m % p)
  let fracPadded := List.replicate (q.scale - rStr.length) '0' ++ rStr.toList
  let fd := (fracPadded.reverse.dropWhile (fun c => c = '0')).reverse
  (if q.mantissa < 0 then "-" else "") ++ toString (m / p) ++
    (if fd.isEmpty then "" else "." ++ String.mk fd)

/-- `formatNumber` in `StatsCards.tsx`: a falsy or unparsable value renders as
`"0"`; values from a million render as tenths of millions with an `"M"`
suffix, values from a thousand as tenths of thousands with a `"K"` suffix,
and smaller values via `toLocaleString`. -/
def formatNumber (value : String) : String :=
  if value = "" then "0"
  else
    match parseDecimal value with
    | none => "0"
    | some num =>
      if num.atLeast 1000000 then toFixed1 (num.divPow10 6) ++ "M"
      else if num.atLeast 1000 then toFixed1 (num.divPow10 3) ++ "K"
      else renderLocale num

/-- The source's `totalCost.startsWith("$")`: the first character is `'$'`. -/
def startsWithDollar (s : String) : Bool :=
  s.toList.head? = some '$'

/-- The Total Cost card value in `StatsCards.tsx`: the received string if it
already starts with `"$"`, otherwise `"$"` prepended (with `"0.00"` for a
falsy value). -/
def ensureDollar (totalCost : String) : String :=
  if totalCost ≠ "" ∧ startsWithDollar totalCost then totalCost
  else "$" ++ (if totalCost = "" then "0.00" else totalCost)

/-- The `value` fields of the `stats` array in `StatsCards.tsx`: what each of
the four cards renders for the received KPI strings. -/
def statsCardsRendered (v : StatsValues) : StatsValues :=
  { total_tokens := formatNumber v.total_tokens
    total_cost := ensureDollar v.total_cost
    active_models := v.active_models
    api_calls := formatNumber v.api_calls }

/-- Monotone model of the time value of `new Date(s)` for the fixed-width
ISO-8601 UTC strings this app sorts (`"YYYY-MM-DDTHH:MM:SSZ"`): the
concatenated digits read as a number, which is ordered chronologically for
that format. -/
def dateVal (s : String) : Nat :=
  digitsToNat (s.toList.filter Char.isDigit)

/-- A row of the workspace cost table in `ChartsSection.tsx`. -/
structure WorkspaceRow where
  workspace : String
  cost : ℚ
  input_tokens : Int
  output_tokens : Int
  total_tokens : Int
  creation_time : String
  deriving DecidableEq

/-- A row of the API key usage table in `ChartsSection.tsx`. -/
structure ApiKeyRow where
  api_key : String
  workspace : String
  input_tokens : Int
  output_tokens : Int
  total_tokens : Int
  creation_time : String
  deriving DecidableEq

/-- The sortable columns of the workspace cost table. -/
inductive WsCol : Type
  | workspace | cost | input_tokens | output_tokens | total_tokens
  | creation_time
  deriving DecidableEq

/-- The sortable columns of the API key usage table. -/
inductive AkCol : Type
  | api_key | workspace | input_tokens | output_tokens | total_tokens
  | creation_time
  deriving DecidableEq

/-- A table sort direction. -/
inductive SortDirection : Type
  | asc | desc
  deriving DecidableEq

/-- The comparable value order of the workspace table comparator: numbers for
`cost` and the token columns, dates for `creation_time`, lower-cased strings
otherwise. `wsCompareLe col a b` is true when `a`'s value does not exceed
`b`'s. -/
def wsCompareLe (col : WsCol) (a b : WorkspaceRow) : Bool :=
  match col with
  | .cost => decide (a.cost ≤ b.cost)
  | .input_tokens => decide (a.input_tokens ≤ b.input_tokens)
  | .output_tokens => decide (a.output_tokens ≤ b.output_tokens)
  | .total_tokens => decide (a.total_tokens ≤ b.total_tokens)
  | .creation_time => decide (dateVal a.creation_time ≤ dateVal b.creation_time)
  | .workspace => decide (a.workspace.toLower ≤ b.workspace.toLower)

/-- The workspace table comparator as a keep-`a`-before-`b` predicate: for
`asc` the comparator returns `1` exactly when `a`'s value exceeds `b`'s, for
`desc` exactly when it is below `b`'s. -/
def wsSortLe (col : WsCol) (dir : SortDirection) (a b : WorkspaceRow) : Bool :=
  match dir with
  | .asc => wsCompareLe col a b
  | .desc => wsCompareLe col b a

/-- The comparable value order of the API key table comparator. -/
def akCompareLe (col : AkCol) (a b : ApiKeyRow) : Bool :=
  match col with
  | .input_tokens => decide (a.input_tokens ≤ b.input_tokens)
  | .output_tokens => decide (a.output_tokens ≤ b.output_tokens)
  | .total_tokens => decide (a.total_tokens ≤ b.total_tokens)
  | .creation_time => decide (dateVal a.creation_time ≤ dateVal b.creation_time)
  | .api_key => decide (a.api_key.toLower ≤ b.api_key.toLower)
  | .workspace => decide (a.workspace.toLower ≤ b.workspace.toLower)

/-- The API key table comparator as a keep-`a`-before-`b` predicate. -/
def akSortLe (col : AkCol) (dir : SortDirection) (a b : ApiKeyRow) : Bool :=
  match dir with
  | .asc => akCompareLe col a b
  | .desc => akCompareLe col b a

/-- `sortedWorkspaceCostTableData` in `ChartsSection.tsx`: the table rows
sorted by the selected column and direction. -/
def sortedWorkspaceCostTableData (col : WsCol) (dir : SortDirection)
    (rows : List WorkspaceRow) : List WorkspaceRow :=
  rows.mergeSort (wsSortLe col dir)

/-- `sortedApiKeyUsageTableData` in `ChartsSection.tsx`. -/
def sortedApiKeyUsageTableData (col : AkCol) (dir : SortDirection)
    (rows : List ApiKeyRow) : List ApiKeyRow :=
  rows.mergeSort (akSortLe col dir)

/-- The ordering the claim describes for the workspace table, written from the
spec sentence: non-decreasing in the selected column for `asc` and
non-increasing for `desc`, numerically for the token and cost columns, by
date for `creation_time`, case-insensitively as strings otherwise. -/
def wsOrderedAsc (col : WsCol) (a b : WorkspaceRow) : Prop :=
  match col with
  | .cost => a.cost ≤ b.cost
  | .input_tokens => a.input_tokens ≤ b.input_tokens
  | .output_tokens => a.output_tokens ≤ b.output_tokens
  | .total_tokens => a.total_tokens ≤ b.total_tokens
  | .creation_time => dateVal a.creation_time ≤ dateVal b.creation_time
  | .workspace => a.workspace.toLower ≤ b.workspace.toLower

/-- Claim-side ordering for the workspace table with a direction. -/
def wsOrdered (col : WsCol) (dir : SortDirection) (a b : WorkspaceRow) :
    Prop :=
  match dir with
  | .asc => wsOrderedAsc col a b
  | .desc => wsOrderedAsc col b a

/-- The ordering the claim describes for the API key table. -/
def akOrderedAsc (col : AkCol) (a b : ApiKeyRow) : Prop :=
  match col with
  | .input_tokens => a.input_tokens ≤ b.input_tokens
  | .output_tokens => a.output_tokens ≤ b.output_tokens
  | .total_tokens => a.total_tokens ≤ b.total_tokens
  | .creation_time => dateVal a.creation_time ≤ dateVal b.creation_time
  | .api_key => a.api_key.toLower ≤ b.api_key.toLower
  | .workspace => a.workspace.toLower ≤ b.workspace.toLower

/-- Claim-side ordering for the API key table with a direction. -/
def akOrdered (col : AkCol) (dir : SortDirection) (a b : ApiKeyRow) : Prop :=
  match dir with
  | .asc => akOrderedAsc col a b
  | .desc => akOrderedAsc col b a

/-- A row of the usage table in `DataTableSection.tsx`. -/
structure UsageRow where
  date : String
  model : String
  input_tokens : Int
  output_tokens : Int
  service_tier : String
  deriving DecidableEq

/-- The Total Tokens cell of a usage table row in `DataTableSection.tsx`:
`row.input_tokens + row.output_tokens`. -/
def usageRowTotalTokensCell (r : UsageRow) : Int :=
  r.input_tokens + r.output_tokens

/-- The totals row of the workspace cost table. -/
structure WorkspaceTotalsRow where
  cost : ℚ
  input_tokens : Int
  output_tokens : Int
  total_tokens : Int
  deriving DecidableEq

/-- The totals row rendered at the bottom of the workspace cost table in
`ChartsSection.tsx`: present only when the sorted table has more than one
row; the cost cell shows the backend-provided `total`, the three token cells
the `reduce` sums over the displayed (sorted) rows. -/
def workspaceCostTotalsRow (col : WsCol) (dir : SortDirection)
    (rows : List WorkspaceRow) (total : ℚ) : Option WorkspaceTotalsRow :=
  let sorted := sortedWorkspaceCostTableData col dir rows
  if 1 < sorted.length then
    some
      { cost := total
        input_tokens := sorted.foldl (fun sum r => sum + r.input_tokens) 0
        output_tokens := sorted.foldl (fun sum r => sum + r.output_tokens) 0
        total_tokens := sorted.foldl (fun sum r => sum + r.total_tokens) 0 }
  else none

theorem lookup_rowAt {α : Type} (cols : List (String × List α)) (i : Nat)
    (c : String) (vs : List α) (hmem : (c, vs) ∈ cols)
    (hnodup : (cols.map Prod.fst).Nodup) :
    (rowAt cols i).lookup c = some vs[i]? := by
  induction cols with
  | nil => cases hmem
  | cons p rest ih =>
    rcases p with ⟨c', vs'⟩
    simp only [rowAt, List.map_cons, List.lookup_cons]
    rcases List.mem_cons.mp hmem with heq | hrest
    · obtain ⟨rfl, rfl⟩ := Prod.mk.injEq .. ▸ heq
      simp
    · have hc : c ≠ c' := by
        rintro rfl
        have : c ∈ rest.map Prod.fst := List.mem_map_of_mem Prod.fst hrest
        simp only [List.map_cons, List.nodup_cons] at hnodup
        exact hnodup.1 this
      have hbeq : (c == c') = false := beq_eq_false_iff_ne.mpr hc
      simp only [hbeq]
      exact ih hrest (by
        simp only [List.map_cons, List.nodup_cons] at hnodup
        exact hnodup.2)

/-- C2: for a defined column-major object whose columns all have length `n`,
`processUsageData` yields exactly `n` rows; row `i` assigns to each column
name `c` the element `i` of column `c` (present, since `i < n`); an undefined
input yields the empty list; and `processCostData` behaves identically. -/
theorem C2_process_data_reshape {α : Type} (cols : List (String × List α))
    (n : Nat) (hne : cols ≠ []) (hlen : ∀ p ∈ cols, (p.2).length = n)
    (hnodup : (cols.map Prod.fst).Nodup) :
    (processUsageData (some cols)).length = n ∧
    (∀ i, i < n →
      (processUsageData (some cols))[i]? = some (rowAt cols i) ∧
      ∀ c vs, (c, vs) ∈ cols →
        (rowAt cols i).lookup c = some vs[i]? ∧ (vs[i]?).isSome) ∧
    processUsageData (none : Option (List (String × List α))) = [] ∧
    (∀ raw : Option (List (String × List α)),
      processCostData raw = processUsageData raw) := by
  obtain ⟨p, rest, rfl⟩ : ∃ p rest, cols = p :: rest := by
    cases cols with
    | nil => exact absurd rfl hne
    | cons p rest => exact ⟨p, rest, rfl⟩
  have hn : p.2.length = n := hlen p (List.mem_cons_self ..)
  refine ⟨?_, ?_, rfl, ?_⟩
  · simp [processUsageData, hn]
  · intro i hi
    constructor
    · simp only [processUsageData, List.getElem?_map, hn,
        List.getElem?_range hi, Option.map_some']
    · intro c vs hmem
      refine ⟨lookup_rowAt _ _ _ _ hmem hnodup, ?_⟩
      have : i < vs.length := by rw [hlen (c, vs) hmem]; exact hi
      simp [List.getElem?_eq_getElem this]
  · intro raw
    cases raw <;> rfl

theorem C2_process_data_reshape_witness :
    (([("date", ["d1", "d2"]), ("model", ["m1", "m2"])] :
        List (String × List String)) ≠ [] ∧
      (∀ p ∈ ([("date", ["d1", "d2"]), ("model", ["m1", "m2"])] :
          List (String × List String)), (p.2).length = 2) ∧
      (([("date", ["d1", "d2"]), ("model", ["m1", "m2"])] :
          List (String × List String)).map Prod.fst).Nodup) ∧
    ((processUsageData (some [("date", ["d1", "d2"]), ("model", ["m1", "m2"])])).length = 2 ∧
      (∀ i, i < 2 →
        (processUsageData (some [("date", ["d1", "d2"]), ("model", ["m1", "m2"])]))[i]? =
          some (rowAt [("date", ["d1", "d2"]), ("model", ["m1", "m2"])] i) ∧
        ∀ c vs, (c, vs) ∈ ([("date", ["d1", "d2"]), ("model", ["m1", "m2"])] :
            List (String × List String)) →
          (rowAt [("date", ["d1", "d2"]), ("model", ["m1", "m2"])] i).lookup c =
            some vs[i]? ∧ (vs[i]?).isSome) ∧
      processUsageData (none : Option (List (String × List String))) = [] ∧
      (∀ raw : Option (List (String × List String)),
        processCostData raw = processUsageData raw)) :=
  ⟨⟨by decide, by decide, by decide⟩,
    C2_process_data_reshape _ 2 (by decide) (by decide) (by decide)⟩

/-- C9: the row count of `processUsageData` is the length of the object's
first column in key-enumeration order, whatever the other columns' lengths:
rows with index beyond that length are dropped, a column shorter than the
first yields an absent (`none`) field in later rows, and an object with no
columns yields zero rows. -/
theorem C9_process_data_first_column {α : Type} (c : String) (vs : List α)
    (rest : List (String × List α)) :
    (processUsageData (some ((c, vs) :: rest))).length = vs.length ∧
    (∀ i, i < vs.length →
      (processUsageData (some ((c, vs) :: rest)))[i]? =
        some (rowAt ((c, vs) :: rest) i)) ∧
    (∀ i, i < vs.length → ∀ c' vs', (c', vs') ∈ (c, vs) :: rest →
      vs'.length ≤ i → (c', (none : Option α)) ∈ rowAt ((c, vs) :: rest) i) ∧
    (∀ i, vs.length ≤ i →
      (processUsageData (some ((c, vs) :: rest)))[i]? = none) ∧
    processUsageData (some ([] : List (String × List α))) = [] := by
  refine ⟨by simp [processUsageData], ?_, ?_, ?_, by simp [processUsageData]⟩
  · intro i hi
    simp only [processUsageData, List.getElem?_map, List.getElem?_range hi,
      Option.map_some']
  · intro i _ c' vs' hmem hshort
    have hnone : vs'[i]? = none := List.getElem?_eq_none hshort
    exact hnone ▸ List.mem_map_of_mem (fun p => (p.1, p.2[i]?)) hmem
  · intro i hge
    apply List.getElem?_eq_none
    simpa [processUsageData] using hge

theorem C9_process_data_first_column_witness :
    ((processUsageData
        (some [("a", [1, 2]), ("b", [10]), ("c", [5, 6, 7])])).length = 2 ∧
      (∀ i, i < 2 →
        (processUsageData
          (some [("a", [1, 2]), ("b", [10]), ("c", [5, 6, 7])]))[i]? =
          some (rowAt [("a", [1, 2]), ("b", [10]), ("c", [5, 6, 7])] i)) ∧
      (∀ i, i < 2 → ∀ c' vs',
        (c', vs') ∈ [("a", [1, 2]), ("b", [10]), ("c", [5, 6, 7])] →
        vs'.length ≤ i →
        (c', (none : Option Nat)) ∈
          rowAt [("a", [1, 2]), ("b", [10]), ("c", [5, 6, 7])] i) ∧
      (∀ i, 2 ≤ i →
        (processUsageData
          (some [("a", [1, 2]), ("b", [10]), ("c", [5, 6, 7])]))[i]? = none) ∧
      processUsageData (some ([] : List (String × List Nat))) = []) ∧
    (processUsageData
        (some [("a", [1, 2]), ("b", [10]), ("c", [5, 6, 7])]))[1]? =
      some [("a", some 2), ("b", none), ("c", some 6)] :=
  ⟨C9_process_data_first_column "a" [1, 2] [("b", [10]), ("c", [5, 6, 7])],
    by decide⟩

/-- C1 as stated is false at a concrete input: with API status `"error"` but
one KPI value different from its default, `StatsCards` renders its normal
content rather than the error panel; likewise `ChartsSection` with one
non-empty chart dataset. -/
theorem C1_counterexample :
    statsCardsView (some "error") ⟨"123456", "$0.00", "0", "0"⟩ =
      PanelView.content ∧
    chartsSectionView (some "error") [()] ([] : List Unit) ([] : List Unit)
      ([] : List Unit) ([] : List Unit) = PanelView.content ∧
    PanelView.content ≠
      PanelView.errorPanel "Statistics Unavailable" true true ∧
    PanelView.content ≠ PanelView.errorPanel "Charts Unavailable" true true :=
  by decide

/-- C1 amended: `StatsCards` renders the `ErrorState` panel (with both the
demo-mode and the retry button) exactly when the API status is `"error"` and
all four KPI values equal their defaults, and `ChartsSection` exactly when
the status is `"error"` and all five chart datasets are empty; in every
other case — in particular whenever the status is `"connected"` or
`"demo"` — the normal content is rendered. -/
theorem C1_error_panel_condition (apiStatus : Option String) (v : StatsValues)
    {α β γ δ ε : Type} (t : List α) (c : List β) (s : List γ) (w : List δ)
    (k : List ε) :
    (statsCardsView apiStatus v =
        PanelView.errorPanel "Statistics Unavailable" true true ↔
      apiStatus = some "error" ∧ v.total_tokens = "0" ∧
        v.total_cost = "$0.00" ∧ v.active_models = "0" ∧ v.api_calls = "0") ∧
    (chartsSectionView apiStatus t c s w k =
        PanelView.errorPanel "Charts Unavailable" true true ↔
      apiStatus = some "error" ∧ t.length = 0 ∧ c.length = 0 ∧
        s.length = 0 ∧ w.length = 0 ∧ k.length = 0) ∧
    (∀ v' : StatsValues, statsCardsView (some "connected") v' =
      PanelView.content) ∧
    (∀ v' : StatsValues, statsCardsView (some "demo") v' =
      PanelView.content) ∧
    chartsSectionView (some "connected") t c s w k = PanelView.content ∧
    chartsSectionView (some "demo") t c s w k = PanelView.content := by
  refine ⟨?_, ?_, ?_, ?_, ?_, ?_⟩
  · by_cases h : apiStatus = some "error" ∧ v.total_tokens = "0" ∧
      v.total_cost = "$0.00" ∧ v.active_models = "0" ∧ v.api_calls = "0" <;>
      simp [statsCardsView, h]
  · by_cases h : apiStatus = some "error" ∧ t.length = 0 ∧ c.length = 0 ∧
      s.length = 0 ∧ w.length = 0 ∧ k.length = 0 <;>
      simp [chartsSectionView, h]
  · intro v'; simp [statsCardsView]
  · intro v'; simp [statsCardsView]
  · simp [chartsSectionView]
  · simp [chartsSectionView]

/-- C3 as stated is false at a concrete input: in `DemoModeToggle`, with the
demo-mode toggle on, the derived status text for a received `"connected"`
status is `"Demo Data"`, not `"Live Data"`. -/
theorem C3_counterexample :
    demoToggleGetStatusText true (some "connected") = "Demo Data" ∧
    "Demo Data" ≠ "Live Data" := by decide

/-- C3 amended: in `ApiStatusCard` and the sidebar `ApiStatus`, the derived
text is `"Live Data"` exactly when the status is `"connected"`,
`"Demo Data"` exactly when `"demo"`, `"API Error"` exactly when `"error"`,
and the status message is rendered exactly when the status is not
`"connected"`. `DemoModeToggle` derives the same text for the declared
statuses only while its demo-mode toggle is off; with the toggle on it
always shows `"Demo Data"`. -/
theorem C3_status_text (s : String) :
    (apiStatusCardGetStatusText s = "Live Data" ↔ s = "connected") ∧
    (apiStatusCardGetStatusText s = "Demo Data" ↔ s = "demo") ∧
    (apiStatusCardGetStatusText s = "API Error" ↔ s = "error") ∧
    (apiStatusCardShowsMessage s = true ↔ s ≠ "connected") ∧
    sidebarApiStatusGetStatusText s = apiStatusCardGetStatusText s ∧
    (sidebarApiStatusShowsMessage s = true ↔ s ≠ "connected") ∧
    ((s = "connected" ∨ s = "demo" ∨ s = "error") →
      demoToggleGetStatusText false (some s) = apiStatusCardGetStatusText s) ∧
    demoToggleGetStatusText true (some s) = "Demo Data" := by
  refine ⟨?_, ?_, ?_, ?_, rfl, ?_, ?_, rfl⟩
  · by_cases h1 : s = "connected" <;>
      by_cases h2 : s = "demo" <;>
      by_cases h3 : s = "error" <;>
      simp [apiStatusCardGetStatusText, h1, h2, h3]
  · by_cases h1 : s = "connected" <;>
      by_cases h2 : s = "demo" <;>
      by_cases h3 : s = "error" <;>
      simp [apiStatusCardGetStatusText, h1, h2, h3]
  · by_cases h1 : s = "connected" <;>
      by_cases h2 : s = "demo" <;>
      by_cases h3 : s = "error" <;>
      simp [apiStatusCardGetStatusText, h1, h2, h3]
  · simp [apiStatusCardShowsMessage, bne_iff_ne]
  · simp [sidebarApiStatusShowsMessage, bne_iff_ne]
  · rintro (rfl | rfl | rfl) <;> rfl

theorem C3_status_text_witness :
    (("demo" : String) = "connected" ∨ ("demo" : String) = "demo" ∨
      ("demo" : String) = "error") ∧
    demoToggleGetStatusText false (some "demo") =
      apiStatusCardGetStatusText "demo" :=
  ⟨Or.inr (Or.inl rfl),
    (C3_status_text "demo").2.2.2.2.2.2.1 (Or.inr (Or.inl rfl))⟩

theorem wsSortLe_trans (col : WsCol) (dir : SortDirection)
    (a b c : WorkspaceRow) (hab : wsSortLe col dir a b)
    (hbc : wsSortLe col dir b c) : wsSortLe col dir a c := by
  cases dir <;> cases col <;>
    simp only [wsSortLe, wsCompareLe, decide_eq_true_eq] at hab hbc ⊢ <;>
    first
    | exact le_trans hab hbc
    | exact le_trans hbc hab

theorem wsSortLe_total (col : WsCol) (dir : SortDirection)
    (a b : WorkspaceRow) : wsSortLe col dir a b || wsSortLe col dir b a := by
  cases dir <;> cases col <;>
    simp only [wsSortLe, wsCompareLe, Bool.or_eq_true, decide_eq_true_eq] <;>
    exact le_total _ _

theorem wsSortLe_imp_wsOrdered (col : WsCol) (dir : SortDirection)
    {a b : WorkspaceRow} (h : wsSortLe col dir a b) : wsOrdered col dir a b := by
  cases dir <;> cases col <;>
    simpa only [wsSortLe, wsCompareLe, wsOrdered, wsOrderedAsc,
      decide_eq_true_eq] using h

theorem akSortLe_trans (col : AkCol) (dir : SortDirection)
    (a b c : ApiKeyRow) (hab : akSortLe col dir a b)
    (hbc : akSortLe col dir b c) : akSortLe col dir a c := by
  cases dir <;> cases col <;>
    simp only [akSortLe, akCompareLe, decide_eq_true_eq] at hab hbc ⊢ <;>
    first
    | exact le_trans hab hbc
    | exact le_trans hbc hab

theorem akSortLe_total (col : AkCol) (dir : SortDirection)
    (a b : ApiKeyRow) : akSortLe col dir a b || akSortLe col dir b a := by
  cases dir <;> cases col <;>
    simp only [akSortLe, akCompareLe, Bool.or_eq_true, decide_eq_true_eq] <;>
    exact le_total _ _

theorem akSortLe_imp_akOrdered (col : AkCol) (dir : SortDirection)
    {a b : ApiKeyRow} (h : akSortLe col dir a b) : akOrdered col dir a b := by
  cases dir <;> cases col <;>
    simpa only [akSortLe, akCompareLe, akOrdered, akOrderedAsc,
      decide_eq_true_eq] using h

/-- C4: for every list of workspace-cost or api-key-usage table rows and every
sort selection, the client-side sort produces a permutation of the input
rows that is ordered by the selected column — non-decreasing for `asc` and
non-increasing for `desc` — comparing numerically for the token and cost
columns, by date for `creation_time`, and case-insensitively as strings
otherwise (`wsOrdered` / `akOrdered` spell out exactly that ordering). -/
theorem C4_table_sort (wcol : WsCol) (acol : AkCol) (dir : SortDirection)
    (wrows : List WorkspaceRow) (arows : List ApiKeyRow) :
    List.Perm (sortedWorkspaceCostTableData wcol dir wrows) wrows ∧
    (sortedWorkspaceCostTableData wcol dir wrows).Pairwise
      (wsOrdered wcol dir) ∧
    List.Perm (sortedApiKeyUsageTableData acol dir arows) arows ∧
    (sortedApiKeyUsageTableData acol dir arows).Pairwise
      (akOrdered acol dir) := by
  refine ⟨List.mergeSort_perm _ _, ?_, List.mergeSort_perm _ _, ?_⟩
  · exact (List.sorted_mergeSort
      (fun a b c => wsSortLe_trans wcol dir a b c)
      (fun a b => wsSortLe_total wcol dir a b) wrows).imp
      (fun h => wsSortLe_imp_wsOrdered wcol dir h)
  · exact (List.sorted_mergeSort
      (fun a b c => akSortLe_trans acol dir a b c)
      (fun a b => akSortLe_total acol dir a b) arows).imp
      (fun h => akSortLe_imp_akOrdered acol dir h)

/-- C5: each preset button writes `date_start` as the calendar date `d` days
before today with suffix `"T00:00:00Z"` and `date_end` as today's calendar
date with suffix `"T23:59:59Z"`, and for every `d ≥ 0` the start timestamp
does not exceed the end timestamp. -/
theorem C5_preset_range (today : Nat) :
    (∀ d ∈ dateRangeSelectorPresetDays,
      setPresetRange today d =
        (isoDate (today - d) ++ "T00:00:00Z",
          isoDate today ++ "T23:59:59Z")) ∧
    (∀ d ∈ filtersSidebarPresetDays,
      setPresetRange today d =
        (isoDate (today - d) ++ "T00:00:00Z",
          isoDate today ++ "T23:59:59Z")) ∧
    (∀ d : Nat, dayStartTimestamp (today - d) ≤ dayEndTimestamp today) := by
  refine ⟨fun d _ => rfl, fun d _ => rfl, fun d => ?_⟩
  have h1 : (today - d) * 86400 ≤ today * 86400 :=
    Nat.mul_le_mul_right _ (Nat.sub_le today d)
  exact le_trans h1 (Nat.le_add_right _ _)

theorem C5_preset_range_witness :
    7 ∈ dateRangeSelectorPresetDays ∧
    setPresetRange 20000 7 =
      (isoDate (20000 - 7) ++ "T00:00:00Z", isoDate 20000 ++ "T23:59:59Z") :=
  ⟨by decide, (C5_preset_range 20000).1 7 (by decide)⟩

/-- C6 as stated is false: `DemoModeToggle` has a branch handling a
`"partial"` status distinct from `connected`/`demo`/`error` (its default
branch would return the status string itself), and `ToastSystem`'s
`registerHandler` re-attempts the unavailable registration step after a
100 ms delay. -/
theorem C6_counterexample :
    demoToggleGetStatusText false (some "partial") = "Partial Data" ∧
    "Partial Data" ≠ "partial" ∧
    demoToggleGetBadgeVariant false (some "partial") = "secondary" ∧
    toastRegisterStep false = ToastRegisterResult.retryIn 100 := by decide

/-- C6 amended: no retry-with-backoff exists, but three small exceptions to
the claim do: `ToastSystem.registerHandler` re-attempts at a fixed 100 ms
delay until Shiny is available, `ErrorState.handleRetry` always ends in a
full page reload, and `DemoModeToggle` maps a `"partial"` status to
`"Partial Data"` with a `"secondary"` badge — a branch distinct from
`connected`/`demo`/`error`, which are the only other specially handled
statuses. -/
theorem C6_retry_and_partial :
    toastRegisterStep true = ToastRegisterResult.registered ∧
    toastRegisterStep false = ToastRegisterResult.retryIn 100 ∧
    (∀ hasOnRetry : Bool,
      (errorStateHandleRetry hasOnRetry).getLast? =
        some RetryEffect.reloadPage) ∧
    demoToggleGetStatusText false (some "partial") = "Partial Data" ∧
    demoToggleGetBadgeVariant false (some "partial") = "secondary" ∧
    (∀ s : String, s ≠ "connected" → s ≠ "partial" → s ≠ "error" →
      s ≠ "demo" → demoToggleGetStatusText false (some s) = s) := by
  refine ⟨rfl, rfl, ?_, rfl, rfl, ?_⟩
  · intro hasOnRetry; cases hasOnRetry <;> rfl
  · intro s h1 h2 h3 h4
    simp [demoToggleGetStatusText, h1, h2, h3, h4]

theorem C6_retry_and_partial_witness :
    (("other" : String) ≠ "connected" ∧ ("other" : String) ≠ "partial" ∧
      ("other" : String) ≠ "error" ∧ ("other" : String) ≠ "demo") ∧
    demoToggleGetStatusText false (some "other") = "other" :=
  ⟨⟨by decide, by decide, by decide, by decide⟩,
    C6_retry_and_partial.2.2.2.2.2 "other" (by decide) (by decide)
      (by decide) (by decide)⟩

/-- C7 as stated is false at a concrete input: `handleWorkspaceChange` writes
two named inputs — it sets `filter_workspace_id` and also resets
`filter_api_key_id` to `"all"`. -/
theorem C7_counterexample :
    (handleWorkspaceChange ⟨"all", "key1", "all", "1d", "", "", false⟩
        "ws2").filter_workspace_id ≠
      (⟨"all", "key1", "all", "1d", "", "", false⟩ :
        FrontendInputs).filter_workspace_id ∧
    (handleWorkspaceChange ⟨"all", "key1", "all", "1d", "", "", false⟩
        "ws2").filter_api_key_id ≠
      (⟨"all", "key1", "all", "1d", "", "", false⟩ :
        FrontendInputs).filter_api_key_id := by decide

/-- C7 amended: every UI control handler writes only its designated named
inputs and leaves all other named inputs unchanged; each writes exactly one
input except `handleWorkspaceChange`, which also resets `filter_api_key_id`
to `"all"`, and the date-range writers (`setPresetRange` and the date-range
initialization), which write both `date_start` and `date_end`. -/
theorem C7_handler_frame (s : FrontendInputs) (value : String)
    (checked : Bool) (today days d : Nat) :
    (handleWorkspaceChange s value).filter_workspace_id = value ∧
    (handleWorkspaceChange s value).filter_api_key_id = "all" ∧
    (handleWorkspaceChange s value).filter_model = s.filter_model ∧
    (handleWorkspaceChange s value).filter_granularity =
      s.filter_granularity ∧
    (handleWorkspaceChange s value).date_start = s.date_start ∧
    (handleWorkspaceChange s value).date_end = s.date_end ∧
    (handleWorkspaceChange s value).use_demo_mode = s.use_demo_mode ∧
    setSelectedApiKey s value = { s with filter_api_key_id := value } ∧
    setSelectedModel s value = { s with filter_model := value } ∧
    setSelectedGranularity s value = { s with filter_granularity := value } ∧
    handleToggle s checked = { s with use_demo_mode := checked } ∧
    handleEnableDemoMode s = { s with use_demo_mode := true } ∧
    handleStartDateSelect s (some d) =
      { s with date_start := isoDate d ++ "T00:00:00Z" } ∧
    handleEndDateSelect s (some d) =
      { s with date_end := isoDate d ++ "T23:59:59Z" } ∧
    handleStartDateSelect s none = s ∧
    handleEndDateSelect s none = s ∧
    setPresetRangeInputs s today days =
      { s with
        date_start := (setPresetRange today days).1
        date_end := (setPresetRange today days).2 } :=
  ⟨rfl, rfl, rfl, rfl, rfl, rfl, rfl, rfl, rfl, rfl, rfl, rfl, rfl, rfl,
    rfl, rfl, rfl⟩

/-- C8 as stated is false at a concrete input: `StatsCards` renders a received
`total_tokens` value of `"2500000"` as the abbreviation `"2.5M"`, not as the
value it was given. -/
theorem C8_counterexample :
    (statsCardsRendered ⟨"2500000", "$1.00", "3", "12"⟩).total_tokens =
      "2.5M" ∧
    "2.5M" ≠ "2500000" := by decide

/-- C8 amended: the stats cards render `active_models` unchanged and
`total_cost` unchanged whenever it already carries a `"$"` sign, but
`total_tokens` and `api_calls` pass through `formatNumber`, which abbreviates
values from a thousand upward (`"1500"` → `"1.5K"`, `"2500000"` → `"2.5M"`)
and renders only smaller values as given (`"999"` → `"999"`); a cost value
without a `"$"` sign gets one prepended. -/
theorem C8_stats_card_rendering (v : StatsValues) :
    (statsCardsRendered v).active_models = v.active_models ∧
    (statsCardsRendered v).total_tokens = formatNumber v.total_tokens ∧
    (statsCardsRendered v).api_calls = formatNumber v.api_calls ∧
    (v.total_cost ≠ "" → startsWithDollar v.total_cost →
      (statsCardsRendered v).total_cost = v.total_cost) ∧
    formatNumber "999" = "999" ∧
    formatNumber "1500" = "1.5K" ∧
    formatNumber "2500000" = "2.5M" ∧
    ensureDollar "12.50" = "$12.50" := by
  refine ⟨rfl, rfl, rfl, ?_, by decide, by decide, by decide, by decide⟩
  intro h1 h2
  simp only [statsCardsRendered, ensureDollar, if_pos (And.intro h1 h2)]

theorem C8_stats_card_rendering_witness :
    (("$2.00" : String) ≠ "" ∧ startsWithDollar "$2.00" = true) ∧
    (statsCardsRendered ⟨"1500", "$2.00", "3", "12"⟩).total_cost = "$2.00" :=
  ⟨⟨by decide, by decide⟩,
    (C8_stats_card_rendering ⟨"1500", "$2.00", "3", "12"⟩).2.2.2.1
      (by decide) (by decide)⟩

theorem foldl_add_eq_sum {β : Type} (f : β → Int) (l : List β) (a : Int) :
    l.foldl (fun sum r => sum + f r) a = a + (l.map f).sum := by
  induction l generalizing a with
  | nil => simp
  | cons x xs ih => simp [ih, add_assoc]

/-- C10: every usage table row's Total Tokens cell is the sum of the row's
input and output tokens; and whenever the workspace cost table shows more
than one row, its totals row shows, for each of the three token columns,
exactly the sum of that column over the displayed rows (equivalently, over
the received rows, of which the displayed rows are a permutation). -/
theorem C10_token_totals (r : UsageRow) (col : WsCol) (dir : SortDirection)
    (rows : List WorkspaceRow) (total : ℚ) (hlen : 1 < rows.length) :
    usageRowTotalTokensCell r = r.input_tokens + r.output_tokens ∧
    workspaceCostTotalsRow col dir rows total =
      some
        { cost := total
          input_tokens := (rows.map (fun x => x.input_tokens)).sum
          output_tokens := (rows.map (fun x => x.output_tokens)).sum
          total_tokens := (rows.map (fun x => x.total_tokens)).sum } := by
  refine ⟨rfl, ?_⟩
  have hperm : List.Perm (sortedWorkspaceCostTableData col dir rows) rows :=
    List.mergeSort_perm rows (wsSortLe col dir)
  have hsum : ∀ f : WorkspaceRow → Int,
      ((sortedWorkspaceCostTableData col dir rows).map f).sum =
        (rows.map f).sum := fun f => (hperm.map f).sum_eq
  have hlen' : 1 < (sortedWorkspaceCostTableData col dir rows).length := by
    rw [hperm.length_eq]; exact hlen
  simp only [workspaceCostTotalsRow, if_pos hlen', foldl_add_eq_sum,
    zero_add, hsum]

theorem C10_token_totals_witness :
    1 < ([⟨"w1", 1, 10, 20, 30, "t1"⟩, ⟨"w2", 2, 1, 2, 3, "t2"⟩] :
        List WorkspaceRow).length ∧
    workspaceCostTotalsRow WsCol.cost SortDirection.desc
        [⟨"w1", 1, 10, 20, 30, "t1"⟩, ⟨"w2", 2, 1, 2, 3, "t2"⟩] 5 =
      some
        { cost := 5
          input_tokens :=
            (([⟨"w1", 1, 10, 20, 30, "t1"⟩, ⟨"w2", 2, 1, 2, 3, "t2"⟩] :
              List WorkspaceRow).map (fun x => x.input_tokens)).sum
          output_tokens :=
            (([⟨"w1", 1, 10, 20, 30, "t1"⟩, ⟨"w2", 2, 1, 2, 3, "t2"⟩] :
              List WorkspaceRow).map (fun x => x.output_tokens)).sum
          total_tokens :=
            (([⟨"w1", 1, 10, 20, 30, "t1"⟩, ⟨"w2", 2, 1, 2, 3, "t2"⟩] :
              List WorkspaceRow).map (fun x => x.total_tokens)).sum } :=
  ⟨by simp,
    (C10_token_totals ⟨"d", "m", 0, 0, "s"⟩ WsCol.cost SortDirection.desc
      [⟨"w1", 1, 10, 20, 30, "t1"⟩, ⟨"w2", 2, 1, 2, 3, "t2"⟩] 5
      (by simp)).2⟩

end Dashboard
